import Mathlib

/-!
Shallow embedding of the ibkr-mcp repository core
(src/ibkr_mcp/ibkr/client.py, src/ibkr_mcp/ibkr/types.py,
src/ibkr_mcp/server.py) and proofs about it.

Python dictionaries are modelled as association lists with
insert-or-replace assignment and first-match lookup; Python `set` is
modelled as a list with the `add` semantics of CPython (adding an
element equal to a present one is a no-op).  Machine floats and
Decimals only flow through the code as opaque payload here, so both
are modelled as rationals.  Fallible Python code (attribute errors,
key errors) is modelled with `Except`.
-/

namespace IbkrMcp

/-- Python dict assignment `d[k] = v`: replaces the binding of `k` if
present, otherwise appends a new binding. -/
def dictInsert {κ α : Type} [DecidableEq κ] (k : κ) (v : α) : List (κ × α) → List (κ × α)
  | [] => [(k, v)]
  | (k', v') :: rest => if k' = k then (k, v) :: rest else (k', v') :: dictInsert k v rest

/-- Python dict lookup `d.get(k)`: the value bound to `k`, if any. -/
def dictGet {κ α : Type} [DecidableEq κ] (k : κ) : List (κ × α) → Option α
  | [] => none
  | (k', v') :: rest => if k' = k then some v' else dictGet k rest

theorem dictGet_dictInsert_self {κ α : Type} [DecidableEq κ] (k : κ) (v : α)
    (l : List (κ × α)) : dictGet k (dictInsert k v l) = some v := by
  induction l with
  | nil => simp [dictInsert, dictGet]
  | cons hd tl ih =>
    obtain ⟨k', v'⟩ := hd
    by_cases h : k' = k
    · simp [dictInsert, dictGet, h]
    · simp [dictInsert, dictGet, h, ih]

theorem dictGet_dictInsert_ne {κ α : Type} [DecidableEq κ] (k k' : κ) (v : α)
    (l : List (κ × α)) (h : k' ≠ k) :
    dictGet k (dictInsert k' v l) = dictGet k l := by
  induction l with
  | nil => simp [dictInsert, dictGet, h]
  | cons hd tl ih =>
    obtain ⟨k0, v0⟩ := hd
    by_cases h0 : k0 = k'
    · subst h0
      simp [dictInsert, dictGet, h]
    · by_cases h1 : k0 = k
      · subst h1
        simp [dictInsert, dictGet, h0, Ne.symm h]
      · simp [dictInsert, dictGet, h0, h1, ih]

/-- Contract (ibapi.contract.Contract): opaque tradable-instrument
reference, used by this core only through its numeric id `conId`. -/
structure Contract where
  conId : Nat
  deriving DecidableEq, Repr

/-- MarketData (client.py): price and size maps keyed by tick-kind
name.  Both maps default to empty. -/
structure MarketData where
  price : List (String × ℚ) := []
  size : List (String × Int) := []
  deriving DecidableEq, Repr

/-- Position (types.py): account, contract, quantity (`position`) and
average cost. -/
structure Position where
  account : String
  contract : Contract
  position : ℚ
  average_cost : ℚ
  deriving DecidableEq, Repr

/-- Position.__hash__: `hash((self.account, self.contract.conId))`.
Python's tuple hash is abstracted as the pair itself (a perfect
hash; hash collisions between distinct pairs are not modelled). -/
def Position.phash (p : Position) : String × Nat :=
  (p.account, p.contract.conId)

/-- Position.__eq__ between two Positions: `hash(self) == hash(other)`. -/
def Position.pyEq (p q : Position) : Bool :=
  p.phash = q.phash

/-- CPython `set.add`: a no-op when an element equal (under the
element type's `__eq__`) to the argument is already present; the
already-present element is kept. -/
def setAdd (s : List Position) (p : Position) : List Position :=
  if s.any (fun q => q.pyEq p) then s else s ++ [p]

/-- Python exceptions that the embedded code can raise. -/
inductive PyError
  | attributeError (name : String)
  | keyError
  deriving DecidableEq, Repr

/-- IBKRWrapper state: exactly the attributes assigned in
`IBKRWrapper.__init__` (`position_event` is an asyncio.Event, modelled
by its armed flag; `positions` is a Python set of Position;
`market_data_request_ids` maps request id to Contract; `market_data`
maps conId to MarketData). -/
structure IBKRWrapper where
  position_event : Bool
  positions : List Position
  market_data_request_ids : List (Nat × Contract)
  market_data : List (Nat × MarketData)
  deriving DecidableEq, Repr

/-- IBKRWrapper.__init__: event unset, all stores empty. -/
def IBKRWrapper.init : IBKRWrapper :=
  { position_event := false
    positions := []
    market_data_request_ids := []
    market_data := [] }

/-- Attribute names ever assigned on an IBKRWrapper instance: the four
assignments in `__init__`; no method of the class assigns any other
instance attribute. -/
def IBKRWrapper.instanceAttrs : List String :=
  ["position_event", "positions", "market_data_request_ids", "market_data"]

/-- Whether a Python attribute read `self.<name>` on an IBKRWrapper
succeeds (the external base class EWrapper defines none of the data
attributes used here). -/
def IBKRWrapper.hasAttr (name : String) : Bool :=
  IBKRWrapper.instanceAttrs.contains name

/-- Attribute read `self._market_data_request_ids` (note the leading
underscore, as written in `tickPrice` and `tickSize`): raises
AttributeError when the attribute was never assigned, otherwise
returns the dict. -/
def IBKRWrapper.readUnderscoreRequestIds (w : IBKRWrapper) :
    Except PyError (List (Nat × Contract)) :=
  if IBKRWrapper.hasAttr "_market_data_request_ids" then
    Except.ok w.market_data_request_ids
  else
    Except.error (PyError.attributeError "_market_data_request_ids")

/-- IBKRWrapper.initiate_market_data_request: records
`request_id -> contract` and creates a fresh empty MarketData record
under `contract.conId`. -/
def IBKRWrapper.initiate_market_data_request (w : IBKRWrapper)
    (request_id : Nat) (contract : Contract) : IBKRWrapper :=
  { w with
    market_data_request_ids := dictInsert request_id contract w.market_data_request_ids
    market_data := dictInsert contract.conId {} w.market_data }

/-- IBKRWrapper.tickPrice.  The tick kind is passed as its resolved
name (the external `TickTypeEnum.idx2name` table is an injective
tick-type-to-name mapping).  The body first reads
`self._market_data_request_ids`; on an unresolved id it logs and
drops the tick; on a resolved id it writes `price` into the subject's
record under the tick-kind name. -/
def IBKRWrapper.tickPrice (w : IBKRWrapper) (reqId : Nat)
    (tickName : String) (price : ℚ) : Except PyError IBKRWrapper := do
  let ids ← w.readUnderscoreRequestIds
  match dictGet reqId ids with
  | none => pure w
  | some contract =>
    match dictGet contract.conId w.market_data with
    | none => Except.error PyError.keyError
    | some md =>
      pure { w with
             market_data := dictInsert contract.conId
               { md with price := dictInsert tickName price md.price }
               w.market_data }

/-- IBKRWrapper.tickSize: as `tickPrice` but writing into the size
map (the `if not contract` falsy test coincides with the `None`
test, a Contract object being always truthy). -/
def IBKRWrapper.tickSize (w : IBKRWrapper) (reqId : Nat)
    (tickName : String) (size : Int) : Except PyError IBKRWrapper := do
  let ids ← w.readUnderscoreRequestIds
  match dictGet reqId ids with
  | none => pure w
  | some contract =>
    match dictGet contract.conId w.market_data with
    | none => Except.error PyError.keyError
    | some md =>
      pure { w with
             market_data := dictInsert contract.conId
               { md with size := dictInsert tickName size md.size }
               w.market_data }

/-- IBKRWrapper.position: adds a Position built from the callback
arguments to the `positions` set. -/
def IBKRWrapper.position (w : IBKRWrapper) (account : String)
    (contract : Contract) (pos : ℚ) (avgCost : ℚ) : IBKRWrapper :=
  { w with
    positions := setAdd w.positions
      { account := account
        contract := contract
        position := pos
        average_cost := avgCost } }

/-- IBKRWrapper.positionEnd: arms the position batch signal. -/
def IBKRWrapper.positionEnd (w : IBKRWrapper) : IBKRWrapper :=
  { w with position_event := true }

/-- IBKRClient.get_market_data: delegates to
`self._wrapper.market_data.get(contract.conId)`. -/
def get_market_data (w : IBKRWrapper) (contract : Contract) : Option MarketData :=
  dictGet contract.conId w.market_data

/-! Model of `IBKRWrapper.wait_for_positions`.  The method interleaves
with the pump thread through `position_event`, so the run is traced
against an environment oracle: `armed n` is the value
`self.position_event.is_set()` observed at poll iteration `n`, and a
Boolean says whether the final `await self.position_event.wait()`
ever completes (the event is, or later becomes, set). -/

/-- Events of one `wait_for_positions` run, in execution order.  A
`sleep n` event records the execution of `await asyncio.sleep(n / 10)`
at iteration `n`; its duration in time units is `WaitEvent.duration`. -/
inductive WaitEvent
  | check (n : Nat)
  | sleep (n : Nat)
  | wait
  | clearSignal
  deriving DecidableEq, Repr

/-- Time slept by an event: `sleep n` sleeps `n / 10` time units. -/
def WaitEvent.duration : WaitEvent → ℚ
  | WaitEvent.sleep n => (n : ℚ) / 10
  | _ => 0

/-- Poll phase of `wait_for_positions` from iteration `n` with `fuel`
iterations of `for n in range(10)` left: check `is_set()`; on armed,
break; otherwise `await asyncio.sleep(n / 10)` and continue. -/
def pollTraceAux (armed : Nat → Bool) : Nat → Nat → List WaitEvent
  | 0, _ => []
  | fuel + 1, n =>
    if armed n then [WaitEvent.check n]
    else WaitEvent.check n :: WaitEvent.sleep n :: pollTraceAux armed fuel (n + 1)

/-- Trace of the full `for n in range(10)` poll. -/
def pollTrace (armed : Nat → Bool) : List WaitEvent :=
  pollTraceAux armed 10 0

/-- Expected poll segment: checks and sleeps for `c` consecutive
not-armed iterations starting at `n`. -/
def pollSeg : Nat → Nat → List WaitEvent
  | _, 0 => []
  | n, c + 1 =>
    WaitEvent.check n :: WaitEvent.sleep n :: pollSeg (n + 1) c

/-- Total time slept in a trace, in time units. -/
def sleepSum : List WaitEvent → ℚ
  | [] => 0
  | e :: rest => e.duration + sleepSum rest

/-- Outcome of one `wait_for_positions` call: either still blocked in
the final `await self.position_event.wait()`, or returned with a
post-state and the returned positions set. -/
inductive WaitOutcome
  | blocked (trace : List WaitEvent)
  | returned (trace : List WaitEvent) (post : IBKRWrapper) (result : List Position)
  deriving Repr

/-- Trace of events performed by a `wait_for_positions` call. -/
def WaitOutcome.trace : WaitOutcome → List WaitEvent
  | WaitOutcome.blocked t => t
  | WaitOutcome.returned t _ _ => t

/-- IBKRWrapper.wait_for_positions: the bounded poll, then the
unconditional `await self.position_event.wait()`; if that wait
completes (`waitCompletes`), the event is cleared and
`self.positions` returned. -/
def IBKRWrapper.wait_for_positions (w : IBKRWrapper) (armed : Nat → Bool)
    (waitCompletes : Bool) : WaitOutcome :=
  if waitCompletes then
    WaitOutcome.returned
      (pollTrace armed ++ [WaitEvent.wait, WaitEvent.clearSignal])
      { w with position_event := false }
      w.positions
  else
    WaitOutcome.blocked (pollTrace armed ++ [WaitEvent.wait])

/-! Model of `IBKRClient.run`, the pump loop.  An inbound raw message
is represented by its length (the loop itself inspects only
`len(text)`; the content flows on to the external field parser and
decoder, recorded here as a dispatch event).  The queue is the list
of messages pending on `self.msg_queue`, pulled in order; `conn i`
is the value of `self.isConnected()` at the i-th guard evaluation.
Fuel bounds the number of guard evaluations: `none` means the loop
was still running when the fuel ran out. -/

/-- Constant `MAX_MSG_LEN` from the external ibapi library. -/
def MAX_MSG_LEN : Nat := 0xFFFFFF

/-- Constant `NO_VALID_ID` from the external ibapi library. -/
def NO_VALID_ID : Int := -1

/-- Error code of `BAD_LENGTH` from the external ibapi library. -/
def BAD_LENGTH_code : Nat := 507

/-- Events of one pump-loop run, in execution order. -/
inductive RunEvent
  | pullTimeout
  | pullMsg (len : Nat)
  | errorEvent (id : Int) (code : Nat)
  | dispatch (len : Nat)
  | disconnectCleanup
  deriving DecidableEq, Repr

/-- Connection states (spec ConnectionState). -/
inductive ConnState
  | Disconnected
  | Connecting
  | Connected
  deriving DecidableEq, Repr

/-- Result of a finished pump-loop run: its event trace and the final
connection state.  Modelled from the spec for the external
`EClient.disconnect`: disconnect cleanup leaves the connection
`Disconnected`. -/
structure RunResult where
  events : List RunEvent
  finalState : ConnState
  deriving DecidableEq, Repr

/-- Loop body of IBKRClient.run: while `isConnected() or not
msg_queue.empty()`, pull with timeout (Empty continues the loop);
an oversized message synthesizes `wrapper.error(NO_VALID_ID,
BAD_LENGTH.code(), ...)` and breaks; otherwise the message is parsed
and dispatched to the decoder.  After the loop, `self.disconnect()`. -/
def runAux (conn : Nat → Bool) : Nat → Nat → List Nat → List RunEvent → Option (List RunEvent)
  | 0, _, _, _ => none
  | fuel + 1, i, q, acc =>
    if conn i || !q.isEmpty then
      match q with
      | [] => runAux conn fuel (i + 1) [] (acc ++ [RunEvent.pullTimeout])
      | len :: rest =>
        if len > MAX_MSG_LEN then
          some (acc ++ [RunEvent.pullMsg len,
                        RunEvent.errorEvent NO_VALID_ID BAD_LENGTH_code,
                        RunEvent.disconnectCleanup])
        else
          runAux conn fuel (i + 1) rest
            (acc ++ [RunEvent.pullMsg len, RunEvent.dispatch len])
    else
      some (acc ++ [RunEvent.disconnectCleanup])

/-- IBKRClient.run driven by `fuel` guard evaluations. -/
def IBKRClient.run (conn : Nat → Bool) (fuel : Nat) (queue : List Nat) :
    Option RunResult :=
  (runAux conn fuel 0 queue []).map fun evs =>
    { events := evs, finalState := ConnState.Disconnected }

/-! Model of `IBKRClient.connect` and the connection guard in
`server.ensure_ibkr_connection`. -/

/-- Client connection-level state: the connection state, how many
transports were opened so far and how many pump threads were started
(each `threading.Thread(target=self.run).start()` adds one). -/
structure IBKRClient where
  connState : ConnState
  transportsOpened : Nat
  pumpThreads : Nat
  deriving DecidableEq, Repr

/-- IBKRClient.connect: unconditionally calls `super().connect(...)`
(the external EClient.connect, modelled from the spec: opens a fresh
transport and moves the connection toward Connected), then
unconditionally starts one more pump thread, then sleeps one second.
There is no already-connected guard in this method. -/
def IBKRClient.connect (c : IBKRClient) : IBKRClient :=
  { c with
    connState := ConnState.Connected
    transportsOpened := c.transportsOpened + 1
    pumpThreads := c.pumpThreads + 1 }

/-- IBKRClient.is_connected: delegates to the external
`EClient.isConnected()`, true exactly in the Connected state. -/
def IBKRClient.is_connected (c : IBKRClient) : Bool :=
  c.connState = ConnState.Connected

/-- Connection guard of `server.ensure_ibkr_connection`: connect only
when `is_connected()` is false. -/
def ensure_ibkr_connection (c : IBKRClient) : IBKRClient :=
  if c.is_connected then c else c.connect

/-! Helper lemmas about the poll phase. -/

theorem pollTraceAux_first_armed (armed : Nat → Bool) :
    ∀ c fuel n, c < fuel →
      (∀ m, n ≤ m → m < n + c → armed m = false) →
      armed (n + c) = true →
      pollTraceAux armed fuel n = pollSeg n c ++ [WaitEvent.check (n + c)] := by
  intro c
  induction c with
  | zero =>
    intro fuel n hfuel _ harm
    match fuel, hfuel with
    | fuel + 1, _ =>
      simp only [Nat.add_zero] at harm
      simp [pollTraceAux, harm, pollSeg]
  | succ c ih =>
    intro fuel n hfuel hbefore harm
    match fuel, hfuel with
    | fuel + 1, hfuel =>
      have hn : armed n = false := hbefore n (Nat.le_refl n) (by omega)
      have hrec : pollTraceAux armed fuel (n + 1)
          = pollSeg (n + 1) c ++ [WaitEvent.check (n + 1 + c)] := by
        apply ih fuel (n + 1) (by omega)
        · intro m hm1 hm2
          exact hbefore m (by omega) (by omega)
        · have hidx : n + 1 + c = n + (c + 1) := by omega
          rw [hidx]
          exact harm
      have hidx : n + 1 + c = n + (c + 1) := by omega
      rw [hidx] at hrec
      simp [pollTraceAux, hn, pollSeg, hrec]

theorem sleepSum_pollTraceAux_nonneg (armed : Nat → Bool) :
    ∀ fuel n, 0 ≤ sleepSum (pollTraceAux armed fuel n) := by
  intro fuel
  induction fuel with
  | zero =>
    intro n
    simp [pollTraceAux, sleepSum]
  | succ fuel ih =>
    intro n
    by_cases h : armed n
    · simp [pollTraceAux, h, sleepSum, WaitEvent.duration]
    · simp only [pollTraceAux, h, Bool.false_eq_true, if_false, sleepSum,
        WaitEvent.duration]
      have h1 : (0 : ℚ) ≤ (n : ℚ) / 10 := by positivity
      have h2 := ih (n + 1)
      linarith

theorem sleepSum_pollTraceAux_le (armed : Nat → Bool) :
    ∀ fuel n, sleepSum (pollTraceAux armed fuel n)
      ≤ sleepSum (pollTraceAux (fun _ => false) fuel n) := by
  intro fuel
  induction fuel with
  | zero =>
    intro n
    simp [pollTraceAux, sleepSum]
  | succ fuel ih =>
    intro n
    by_cases h : armed n
    · simp only [pollTraceAux, h, if_true, sleepSum, WaitEvent.duration]
      have h1 : (0 : ℚ) ≤ (n : ℚ) / 10 := by positivity
      have h2 := sleepSum_pollTraceAux_nonneg (fun _ => false) fuel (n + 1)
      linarith
    · simp only [pollTraceAux, h, Bool.false_eq_true, if_false, sleepSum,
        WaitEvent.duration]
      have h2 := ih (n + 1)
      linarith

/-! Helper lemma about the pump loop: every finished run performed the
disconnect cleanup exactly once more than was in the accumulator. -/

theorem runAux_count_cleanup (conn : Nat → Bool) :
    ∀ fuel i q acc r, runAux conn fuel i q acc = some r →
      r.count RunEvent.disconnectCleanup
        = acc.count RunEvent.disconnectCleanup + 1 := by
  intro fuel
  induction fuel with
  | zero =>
    intro i q acc r h
    simp [runAux] at h
  | succ fuel ih =>
    intro i q acc r h
    cases q with
    | nil =>
      by_cases hc : conn i
      · simp only [runAux, hc, List.isEmpty_nil, Bool.not_true, Bool.or_false,
          if_true] at h
        have := ih (i + 1) [] (acc ++ [RunEvent.pullTimeout]) r h
        simpa [List.count_append] using this
      · simp only [runAux, hc, List.isEmpty_nil, Bool.not_true, Bool.or_false,
          Bool.false_eq_true, if_false, Option.some.injEq] at h
        subst h
        simp [List.count_append, List.count_cons, List.count_nil, beq_iff_eq]
    | cons len rest =>
      by_cases hlen : len > MAX_MSG_LEN
      · simp only [runAux, List.isEmpty_cons, Bool.not_false, Bool.or_true,
          if_true, hlen, Option.some.injEq] at h
        subst h
        simp [List.count_append, List.count_cons, List.count_nil, beq_iff_eq]
      · simp only [runAux, List.isEmpty_cons, Bool.not_false, Bool.or_true,
          if_true, hlen, if_false] at h
        have := ih (i + 1) rest
          (acc ++ [RunEvent.pullMsg len, RunEvent.dispatch len]) r h
        simpa [List.count_append, List.count_cons, List.count_nil, beq_iff_eq]
          using this

/-- Helper: the full never-armed poll trace is the ten-iteration
segment from 0. -/
theorem pollTrace_never_armed : pollTrace (fun _ => false) = pollSeg 0 10 := by
  decide

/-- Helper: the full ten-iteration poll segment, listed. -/
theorem pollSeg_zero_ten : pollSeg 0 10 = [WaitEvent.check 0, WaitEvent.sleep 0,
    WaitEvent.check 1, WaitEvent.sleep 1, WaitEvent.check 2, WaitEvent.sleep 2,
    WaitEvent.check 3, WaitEvent.sleep 3, WaitEvent.check 4, WaitEvent.sleep 4,
    WaitEvent.check 5, WaitEvent.sleep 5, WaitEvent.check 6, WaitEvent.sleep 6,
    WaitEvent.check 7, WaitEvent.sleep 7, WaitEvent.check 8, WaitEvent.sleep 8,
    WaitEvent.check 9, WaitEvent.sleep 9] := by
  decide

/-- Helper: the full poll sleeps 0 + 1/10 + ... + 9/10 = 9/2 time units. -/
theorem sleepSum_pollSeg_ten : sleepSum (pollSeg 0 10) = 9 / 2 := by
  rw [pollSeg_zero_ten]
  norm_num [sleepSum, WaitEvent.duration]

/-- C1: Evaluation of `IBKRWrapper.position` at the failing input.  The
claim says the second `onPosition` for the same `(account, subject-id)`
key replaces the earlier entry with the most recent quantity and
average cost.  In the code, `set.add` is a no-op on an already-present
key, so the set keeps exactly one entry per key but with the FIRST
delivered quantity (100) and cost (55.2), not the most recent
(150, 56.0). -/
theorem C1_position_callback_keeps_first_entry :
    ((IBKRWrapper.init.position "U123" ⟨7⟩ 100 (552 / 10)).position "U123" ⟨7⟩ 150 56).positions
        = [{ account := "U123", contract := ⟨7⟩, position := 100, average_cost := 552 / 10 }]
    ∧ ((IBKRWrapper.init.position "U123" ⟨7⟩ 100 (552 / 10)).position "U123" ⟨7⟩ 150 56).positions
        ≠ [{ account := "U123", contract := ⟨7⟩, position := 150, average_cost := 56 }] := by
  constructor
  · rfl
  · intro h
    have h1 : ([{ account := "U123", contract := ⟨7⟩, position := (100 : ℚ), average_cost := 552 / 10 }] : List Position)
        = [{ account := "U123", contract := ⟨7⟩, position := 150, average_cost := 56 }] := h
    injection h1 with hhead _
    injection hhead with ha hc hp hcost
    norm_num at hp

/-- C2: Evaluation of `IBKRWrapper.tickPrice` and `IBKRWrapper.tickSize`
at an id never returned by any request, on a fresh wrapper.  The claim
says the event is logged and dropped with all stores unchanged and no
exception; in the code both callbacks read the never-assigned attribute
`_market_data_request_ids` (`__init__` assigns `market_data_request_ids`),
so they raise AttributeError before reaching the log-and-drop branch. -/
theorem C2_tick_callbacks_raise_attribute_error :
    IBKRWrapper.init.tickPrice 99 "BID" (1015 / 10)
        = Except.error (PyError.attributeError "_market_data_request_ids")
    ∧ IBKRWrapper.init.tickSize 99 "BID_SIZE" 3
        = Except.error (PyError.attributeError "_market_data_request_ids") :=
  ⟨rfl, rfl⟩

/-- C3: Evaluation of the claim's scenario: begin a request with id 42
for the subject with conId 7, then deliver `onTickPrice(42, "BID",
101.5)`.  The claim says `getMarketData` then returns
`{price: {"BID": 101.5}, size: {}}`; in the code the tick callback
raises AttributeError (see C2) and writes nothing, so the record stays
completely empty: no "BID" entry exists. -/
theorem C3_resolved_tick_raises_and_record_stays_empty :
    (IBKRWrapper.init.initiate_market_data_request 42 ⟨7⟩).tickPrice 42 "BID" (203 / 2)
        = Except.error (PyError.attributeError "_market_data_request_ids")
    ∧ get_market_data (IBKRWrapper.init.initiate_market_data_request 42 ⟨7⟩) ⟨7⟩
        = some { price := [], size := [] }
    ∧ dictGet "BID" (MarketData.price { price := [], size := [] }) = none :=
  ⟨rfl, rfl, rfl⟩

/-- C4: `wait_for_positions` performs up to 10 poll iterations n=0..9,
each checking the signal first and sleeping n/10 units only when it is
not armed (durations 0, 1/10, ..., 9/10, total at most 9/2), exits the
poll at the first iteration that observes the signal armed, then always
performs one unconditional blocking wait; called with the signal
already armed it performs a single check and no sleep. -/
theorem C4_wait_for_positions_poll_then_block :
    (∀ (w : IBKRWrapper) (armed : Nat → Bool),
      (w.wait_for_positions armed true).trace
          = pollTrace armed ++ [WaitEvent.wait, WaitEvent.clearSignal]
        ∧ (w.wait_for_positions armed false).trace
          = pollTrace armed ++ [WaitEvent.wait])
    ∧ (∀ (armed : Nat → Bool) (k : Nat), k < 10 →
        (∀ m, m < k → armed m = false) → armed k = true →
        pollTrace armed = pollSeg 0 k ++ [WaitEvent.check k])
    ∧ pollTrace (fun _ => false) = pollSeg 0 10
    ∧ sleepSum (pollSeg 0 10) = 9 / 2
    ∧ (∀ armed : Nat → Bool, sleepSum (pollTrace armed) ≤ 9 / 2)
    ∧ (∀ (w : IBKRWrapper) (armed : Nat → Bool), armed 0 = true →
        (w.wait_for_positions armed true).trace
          = [WaitEvent.check 0, WaitEvent.wait, WaitEvent.clearSignal]) := by
  refine ⟨?_, ?_, pollTrace_never_armed, sleepSum_pollSeg_ten, ?_, ?_⟩
  · intro w armed
    exact ⟨rfl, rfl⟩
  · intro armed k hk hbefore harmed
    have h := pollTraceAux_first_armed armed k 10 0 hk
      (fun m _ hm2 => hbefore m (by omega)) (by simpa using harmed)
    simpa [pollTrace] using h
  · intro armed
    calc sleepSum (pollTrace armed)
        ≤ sleepSum (pollTraceAux (fun _ => false) 10 0) :=
          sleepSum_pollTraceAux_le armed 10 0
      _ = sleepSum (pollSeg 0 10) := by
            rw [pollTrace_never_armed.symm]
            rfl
      _ = 9 / 2 := sleepSum_pollSeg_ten
  · intro w armed h0
    have htr : pollTrace armed = [WaitEvent.check 0] := by
      simp [pollTrace, pollTraceAux, h0]
    simp [IBKRWrapper.wait_for_positions, WaitOutcome.trace, htr]

/-- C4 witness: the early-exit part at the schedule armed from
iteration 3 on, and the already-armed part on a fresh wrapper. -/
theorem C4_wait_for_positions_poll_then_block_witness :
    pollTrace (fun n => decide (3 ≤ n)) = pollSeg 0 3 ++ [WaitEvent.check 3]
    ∧ (IBKRWrapper.init.wait_for_positions (fun _ => true) true).trace
        = [WaitEvent.check 0, WaitEvent.wait, WaitEvent.clearSignal] := by
  constructor
  · exact C4_wait_for_positions_poll_then_block.2.1 (fun n => decide (3 ≤ n)) 3
      (by norm_num) (by decide) (by decide)
  · exact C4_wait_for_positions_poll_then_block.2.2.2.2.2 IBKRWrapper.init
      (fun _ => true) rfl

/-- C5: every returning run of `wait_for_positions` has the signal
cleared in its post-state (and returns the accumulated positions), and
a second immediate call on such a post-state with the signal never
re-armed runs the full ten-iteration poll and then blocks in the
unconditional wait instead of returning. -/
theorem C5_wait_clears_signal_then_second_call_blocks :
    (∀ (w : IBKRWrapper) (armed : Nat → Bool) (wc : Bool) (tr : List WaitEvent)
        (post : IBKRWrapper) (res : List Position),
      w.wait_for_positions armed wc = WaitOutcome.returned tr post res →
        post.position_event = false ∧ res = w.positions)
    ∧ (∀ post : IBKRWrapper, post.position_event = false →
        post.wait_for_positions (fun _ => post.position_event) false
          = WaitOutcome.blocked (pollSeg 0 10 ++ [WaitEvent.wait])) := by
  constructor
  · intro w armed wc tr post res h
    cases wc with
    | false => simp [IBKRWrapper.wait_for_positions] at h
    | true =>
      simp only [IBKRWrapper.wait_for_positions, if_true,
        WaitOutcome.returned.injEq] at h
      obtain ⟨_, hpost, hres⟩ := h
      subst hpost
      subst hres
      exact ⟨rfl, rfl⟩
  · intro post hpost
    have harm : (fun _ : Nat => post.position_event) = (fun _ : Nat => false) := by
      funext m
      exact hpost
    simp only [IBKRWrapper.wait_for_positions, Bool.false_eq_true, if_false, harm]
    rw [pollTrace_never_armed]

/-- C5 witness: a concrete completed run on a fresh wrapper with the
signal armed throughout, and a concrete blocked second call. -/
theorem C5_wait_clears_signal_then_second_call_blocks_witness :
    (({ IBKRWrapper.init with position_event := false } : IBKRWrapper).position_event
        = false
      ∧ ([] : List Position) = IBKRWrapper.init.positions)
    ∧ IBKRWrapper.init.wait_for_positions (fun _ => IBKRWrapper.init.position_event) false
        = WaitOutcome.blocked (pollSeg 0 10 ++ [WaitEvent.wait]) := by
  constructor
  · exact C5_wait_clears_signal_then_second_call_blocks.1 IBKRWrapper.init
      (fun _ => true) true
      [WaitEvent.check 0, WaitEvent.wait, WaitEvent.clearSignal]
      { IBKRWrapper.init with position_event := false } [] rfl
  · exact C5_wait_clears_signal_then_second_call_blocks.2 IBKRWrapper.init rfl

/-- C6: issuing `initiate_market_data_request` for a subject from any
wrapper state (in particular one holding earlier tick values for that
subject under a previous request) resets the subject's record, so
`get_market_data` returns the empty record. -/
theorem C6_second_initiate_resets_record :
    ∀ (w : IBKRWrapper) (request_id : Nat) (contract : Contract),
      get_market_data (w.initiate_market_data_request request_id contract) contract
        = some { price := [], size := [] } := by
  intro w request_id contract
  simp [get_market_data, IBKRWrapper.initiate_market_data_request,
    dictGet_dictInsert_self]

/-- C7: when the pump loop pulls a message longer than MAX_MSG_LEN it
synthesizes the BAD_LENGTH error event, exits the loop without
dispatching that message or any queued successor, and runs the
disconnect cleanup, ending Disconnected. -/
theorem C7_oversized_message_fatal :
    ∀ (conn : Nat → Bool) (fuel big : Nat) (rest : List Nat),
      big > MAX_MSG_LEN →
      IBKRClient.run conn (fuel + 1) (big :: rest)
          = some { events := [RunEvent.pullMsg big,
                              RunEvent.errorEvent NO_VALID_ID BAD_LENGTH_code,
                              RunEvent.disconnectCleanup],
                   finalState := ConnState.Disconnected }
        ∧ (∀ m : Nat, RunEvent.dispatch m ∉ [RunEvent.pullMsg big,
              RunEvent.errorEvent NO_VALID_ID BAD_LENGTH_code,
              RunEvent.disconnectCleanup]) := by
  intro conn fuel big rest hbig
  constructor
  · simp [IBKRClient.run, runAux, hbig]
  · intro m
    simp

/-- C7 witness: a message one byte over the limit on an otherwise idle
connection. -/
theorem C7_oversized_message_fatal_witness :
    IBKRClient.run (fun _ => false) 1 [16777216]
        = some { events := [RunEvent.pullMsg 16777216,
                            RunEvent.errorEvent NO_VALID_ID BAD_LENGTH_code,
                            RunEvent.disconnectCleanup],
                 finalState := ConnState.Disconnected }
      ∧ (∀ m : Nat, RunEvent.dispatch m ∉ [RunEvent.pullMsg 16777216,
            RunEvent.errorEvent NO_VALID_ID BAD_LENGTH_code,
            RunEvent.disconnectCleanup]) :=
  C7_oversized_message_fatal (fun _ => false) 0 16777216 []
    (by norm_num [MAX_MSG_LEN])

/-- C8: every finished pump-loop run performed the disconnect cleanup
exactly once; with the queue empty the loop guard-exits exactly when
the transport is disconnected and otherwise pulls with a timeout and
continues; with a message queued it pulls and processes it regardless
of connectivity. -/
theorem C8_run_loop_guard_and_cleanup :
    (∀ (conn : Nat → Bool) (fuel : Nat) (q : List Nat) (res : RunResult),
      IBKRClient.run conn fuel q = some res →
        res.events.count RunEvent.disconnectCleanup = 1)
    ∧ (∀ (conn : Nat → Bool) (fuel i : Nat) (acc : List RunEvent),
        conn i = false →
        runAux conn (fuel + 1) i [] acc = some (acc ++ [RunEvent.disconnectCleanup]))
    ∧ (∀ (conn : Nat → Bool) (fuel i : Nat) (acc : List RunEvent),
        conn i = true →
        runAux conn (fuel + 1) i [] acc
          = runAux conn fuel (i + 1) [] (acc ++ [RunEvent.pullTimeout]))
    ∧ (∀ (conn : Nat → Bool) (fuel i len : Nat) (rest : List Nat)
        (acc : List RunEvent),
        len ≤ MAX_MSG_LEN →
        runAux conn (fuel + 1) i (len :: rest) acc
          = runAux conn fuel (i + 1) rest
              (acc ++ [RunEvent.pullMsg len, RunEvent.dispatch len])) := by
  refine ⟨?_, ?_, ?_, ?_⟩
  · intro conn fuel q res h
    simp only [IBKRClient.run, Option.map_eq_some'] at h
    obtain ⟨evs, hevs, hres⟩ := h
    have hc := runAux_count_cleanup conn fuel 0 q [] evs hevs
    subst hres
    simpa using hc
  · intro conn fuel i acc h
    simp [runAux, h]
  · intro conn fuel i acc h
    simp [runAux, h]
  · intro conn fuel i len rest acc h
    have hnot : ¬ len > MAX_MSG_LEN := not_lt.mpr h
    simp [runAux, hnot]

/-- C8 witness: a one-iteration disconnected idle run has exactly one
cleanup event, a connected empty-queue step pulls with a timeout, and
a queued in-range message is pulled and dispatched. -/
theorem C8_run_loop_guard_and_cleanup_witness :
    ({ events := [RunEvent.disconnectCleanup],
       finalState := ConnState.Disconnected } : RunResult).events.count
        RunEvent.disconnectCleanup = 1
    ∧ runAux (fun _ => false) 1 0 [] [] = some [RunEvent.disconnectCleanup]
    ∧ runAux (fun _ => true) 1 0 [] []
        = runAux (fun _ => true) 0 1 [] [RunEvent.pullTimeout]
    ∧ runAux (fun _ => false) 1 0 [5] []
        = runAux (fun _ => false) 0 1 []
            [RunEvent.pullMsg 5, RunEvent.dispatch 5] := by
  refine ⟨?_, ?_, ?_, ?_⟩
  · exact C8_run_loop_guard_and_cleanup.1 (fun _ => false) 1 []
      { events := [RunEvent.disconnectCleanup],
        finalState := ConnState.Disconnected } rfl
  · exact C8_run_loop_guard_and_cleanup.2.1 (fun _ => false) 0 0 [] rfl
  · exact C8_run_loop_guard_and_cleanup.2.2.1 (fun _ => true) 0 0 [] rfl
  · exact C8_run_loop_guard_and_cleanup.2.2.2 (fun _ => false) 0 0 5 [] []
      (by norm_num [MAX_MSG_LEN])

/-- Concrete client that is already Connected, with one live pump
thread. -/
def connectedClient : IBKRClient :=
  { connState := ConnState.Connected, transportsOpened := 1, pumpThreads := 1 }

/-- Concrete client before any connect. -/
def freshClient : IBKRClient :=
  { connState := ConnState.Disconnected, transportsOpened := 0, pumpThreads := 0 }

/-- C9 counterexample: a client that is already Connected.  The claim
says `connect` is then a no-op starting no additional pump thread; the
code's `connect` has no guard, so it changes the client and starts a
second pump thread. -/
theorem C9_connect_counterexample :
    connectedClient.is_connected = true
    ∧ connectedClient.connect ≠ connectedClient
    ∧ connectedClient.connect.pumpThreads = 2 := by
  decide

/-- C9 amended: `connect` is not idempotent: every call opens one more
transport and starts one more pump thread, whatever the current state;
the no-op-when-connected behavior lives only in the caller-side guard
`ensure_ibkr_connection`, which invokes `connect` solely when
`is_connected()` is false. -/
theorem C9_connect_unguarded_caller_guard :
    (∀ c : IBKRClient,
      (c.connect).pumpThreads = c.pumpThreads + 1
        ∧ (c.connect).transportsOpened = c.transportsOpened + 1)
    ∧ (∀ c : IBKRClient, c.is_connected = true → ensure_ibkr_connection c = c) := by
  constructor
  · intro c
    exact ⟨rfl, rfl⟩
  · intro c h
    simp [ensure_ibkr_connection, h]

/-- C9 witness: connect from a fresh client adds a thread, and the
server guard is a no-op on a connected client. -/
theorem C9_connect_unguarded_caller_guard_witness :
    (freshClient.connect.pumpThreads = freshClient.pumpThreads + 1
      ∧ freshClient.connect.transportsOpened = freshClient.transportsOpened + 1)
    ∧ ensure_ibkr_connection connectedClient = connectedClient := by
  constructor
  · exact C9_connect_unguarded_caller_guard.1 freshClient
  · exact C9_connect_unguarded_caller_guard.2 connectedClient rfl

/-- C10: Evaluation at the claim's scenario: two requests for the
subject with conId 7 get ids 1 then 2.  The superseded id 1 indeed
still resolves in the request-id map (entries are never removed), but
the claim's conclusion fails: a tick tagged with id 1 does not write
into the fresh record — the callback raises AttributeError (see C2)
and the record stays empty. -/
theorem C10_superseded_id_resolves_but_tick_raises :
    dictGet 1 (((IBKRWrapper.init.initiate_market_data_request 1 ⟨7⟩).initiate_market_data_request
        2 ⟨7⟩).market_data_request_ids)
      = some ⟨7⟩
    ∧ ((IBKRWrapper.init.initiate_market_data_request 1 ⟨7⟩).initiate_market_data_request
        2 ⟨7⟩).tickPrice 1 "BID" (203 / 2)
      = Except.error (PyError.attributeError "_market_data_request_ids")
    ∧ get_market_data ((IBKRWrapper.init.initiate_market_data_request 1 ⟨7⟩).initiate_market_data_request
        2 ⟨7⟩) ⟨7⟩
      = some { price := [], size := [] } :=
  ⟨rfl, rfl, rfl⟩

end IbkrMcp
